import Mathlib

/-
Verification of the payment-verification core of the Ledgererp backend
(`app/services/blockchain.py`): the circuit breaker, the dual-mode probe
loop, and the transaction-verification pipeline.

Conventions of the embedding:
- Python `datetime` values are integer seconds (`Int`); elapsed time is
  integer subtraction, `timedelta(days=30)` is the constant 2592000 s.
- Python `float` amounts are modelled as rationals (`Rat`).
- Python dicts (insertion ordered) are association lists with
  first-match lookup and replace-in-place insertion.
- A function that can raise across its boundary returns `Except PyExn`;
  `float(x)` on an unparseable string is the `ValueError` case.
- `str.strip()` is `pyStrip`, `str.lower()` is `pyLower`,
  `str.startswith` is `strStarts` (structural models of the Python string
  methods), and `len(s.encode("utf-8"))` is `String.utf8ByteSize`.
-/

namespace Ledgererp

/-- Circuit breaker from `CircuitBreaker.__init__`: the `state` field holds one
of the strings "closed", "open", "half_open", exactly as in the source. -/
structure CircuitBreaker where
  failure_threshold : Nat
  timeout : Nat
  failure_count : Nat
  last_failure_time : Option Int
  state : String
deriving Repr, DecidableEq

/-- `CircuitBreaker(failure_threshold, timeout)`: count 0, no failure time, closed. -/
def CircuitBreaker.init (failure_threshold : Nat) (timeout : Nat) : CircuitBreaker :=
  ⟨failure_threshold, timeout, 0, none, "closed"⟩

/-- `CircuitBreaker.record_success`: reset on successful request. -/
def CircuitBreaker.record_success (cb : CircuitBreaker) : CircuitBreaker :=
  { cb with failure_count := 0, state := "closed" }

/-- `CircuitBreaker.record_failure`: increment the count, stamp the time, and
open the circuit once the count reaches the threshold. -/
def CircuitBreaker.record_failure (cb : CircuitBreaker) (now : Int) : CircuitBreaker :=
  if cb.failure_count + 1 ≥ cb.failure_threshold then
    { cb with failure_count := cb.failure_count + 1, last_failure_time := some now,
              state := "open" }
  else
    { cb with failure_count := cb.failure_count + 1, last_failure_time := some now }

/-- `CircuitBreaker.can_attempt`: returns the boolean together with the
(possibly updated) breaker, since the open-state branch mutates `state`. -/
def CircuitBreaker.can_attempt (cb : CircuitBreaker) (now : Int) : Bool × CircuitBreaker :=
  if cb.state = "closed" then (true, cb)
  else if cb.state = "open" then
    match cb.last_failure_time with
    | some t =>
        if now - t ≥ (cb.timeout : Int) then (true, { cb with state := "half_open" })
        else (false, cb)
    | none => (false, cb)
  else (true, cb)

/-- `NodeMode` enum. -/
inductive NodeMode where
  | LOCAL
  | PUBLIC
  | HIBERNATION
deriving Repr, DecidableEq

/-- Outcome of one HTTP probe of an endpoint: either a response with a status
code, or a timeout/connection error (an exception in the source). -/
inductive ProbeOutcome where
  | status (code : Nat)
  | netError
deriving Repr, DecidableEq

/-- The node-selector state owned by `BlockchainService`: the current mode, the
derived externally visible hibernation flag, and the breaker. -/
structure ProbeState where
  current_mode : NodeMode
  circuit_breaker_open : Bool
  circuit_breaker : CircuitBreaker
deriving Repr, DecidableEq

/-- `BlockchainService.__init__`: mode LOCAL, flag false, breaker with the
default threshold 5 and timeout 60. -/
def initialProbeState : ProbeState :=
  ⟨NodeMode.LOCAL, false, CircuitBreaker.init 5 60⟩

/-- `BlockchainService._try_local_node`: 200 records success and returns True;
500/503 record failure and return False; an exception (timeout / connection
error) records failure and returns False; any other status falls through both
branches and the function returns Python's implicit `None` (modelled `none`),
touching nothing. -/
def tryLocalNode (outcome : ProbeOutcome) (now : Int) (cb : CircuitBreaker) :
    Option Bool × CircuitBreaker :=
  match outcome with
  | .status code =>
      if code = 200 then (some true, cb.record_success)
      else if code = 500 ∨ code = 503 then (some false, cb.record_failure now)
      else (none, cb)
  | .netError => (some false, cb.record_failure now)

/-- `BlockchainService._try_public_api`: as the local probe, except that a 200
while in HIBERNATION additionally recovers to PUBLIC and clears the flag. -/
def tryPublicApi (outcome : ProbeOutcome) (now : Int) (s : ProbeState) :
    Option Bool × ProbeState :=
  match outcome with
  | .status code =>
      if code = 200 then
        if s.current_mode = NodeMode.HIBERNATION then
          (some true, { s with circuit_breaker := s.circuit_breaker.record_success,
                               current_mode := NodeMode.PUBLIC,
                               circuit_breaker_open := false })
        else
          (some true, { s with circuit_breaker := s.circuit_breaker.record_success })
      else if code = 500 ∨ code = 503 then
        (some false, { s with circuit_breaker := s.circuit_breaker.record_failure now })
      else (none, s)
  | .netError => (some false, { s with circuit_breaker := s.circuit_breaker.record_failure now })

/-- The environment of one probe-loop iteration: the clock and the outcome each
endpoint would give if probed this cycle. -/
structure ProbeEnv where
  now : Int
  localOutcome : ProbeOutcome
  publicOutcome : ProbeOutcome
deriving Repr, DecidableEq

/-- The "try local node first" block of `_check_pending_transactions`: while in
LOCAL mode, probe the local node; anything but `True` switches mode to PUBLIC. -/
def localPhase (env : ProbeEnv) (s0 : ProbeState) : ProbeState :=
  if s0.current_mode = NodeMode.LOCAL then
    if (tryLocalNode env.localOutcome env.now s0.circuit_breaker).1 ≠ some true then
      { s0 with circuit_breaker := (tryLocalNode env.localOutcome env.now s0.circuit_breaker).2,
                current_mode := NodeMode.PUBLIC }
    else
      { s0 with circuit_breaker := (tryLocalNode env.localOutcome env.now s0.circuit_breaker).2 }
  else s0

/-- The "fallback to public API" block of `_check_pending_transactions`: while
in PUBLIC or HIBERNATION mode, probe the public API; anything but `True` enters
hibernation (unless already there); recovery happens inside `tryPublicApi`. -/
def publicPhase (env : ProbeEnv) (s1 : ProbeState) : ProbeState :=
  if s1.current_mode = NodeMode.PUBLIC ∨ s1.current_mode = NodeMode.HIBERNATION then
    if (tryPublicApi env.publicOutcome env.now s1).1 ≠ some true then
      if (tryPublicApi env.publicOutcome env.now s1).2.current_mode ≠ NodeMode.HIBERNATION then
        { (tryPublicApi env.publicOutcome env.now s1).2 with
            current_mode := NodeMode.HIBERNATION, circuit_breaker_open := true }
      else (tryPublicApi env.publicOutcome env.now s1).2
    else (tryPublicApi env.publicOutcome env.now s1).2
  else s1

/-- `BlockchainService._check_pending_transactions`, one iteration of the probe
loop: gate on `can_attempt` (entering hibernation when it refuses and skipping
the probes), then the local-node block followed by the public-API block. -/
def checkPendingTransactions (env : ProbeEnv) (s : ProbeState) : ProbeState :=
  if (s.circuit_breaker.can_attempt env.now).1 = false then
    if s.current_mode ≠ NodeMode.HIBERNATION then
      { s with circuit_breaker := (s.circuit_breaker.can_attempt env.now).2,
               current_mode := NodeMode.HIBERNATION, circuit_breaker_open := true }
    else { s with circuit_breaker := (s.circuit_breaker.can_attempt env.now).2 }
  else
    publicPhase env
      (localPhase env { s with circuit_breaker := (s.circuit_breaker.can_attempt env.now).2 })

/-- The states the probe loop can reach from the freshly constructed service,
under arbitrary sequences of probe outcomes. -/
inductive ReachableProbe : ProbeState → Prop where
  | init : ReachableProbe initialProbeState
  | step (env : ProbeEnv) {s : ProbeState} :
      ReachableProbe s → ReachableProbe (checkPendingTransactions env s)

/-- Python `str.strip()` with no argument: drop leading and trailing
whitespace characters from both ends. -/
def pyStrip (s : String) : String :=
  ⟨((s.data.dropWhile Char.isWhitespace).reverse.dropWhile Char.isWhitespace).reverse⟩

/-- Helper for `str.startswith`: the first list is an initial segment of the second. -/
def listStarts : List Char → List Char → Bool
  | [], _ => true
  | _ :: _, [] => false
  | c :: cs, d :: ds => c = d && listStarts cs ds

/-- Python `s.startswith(pre)`. -/
def strStarts (s pre : String) : Bool := listStarts pre.data s.data

/-- Python `str.lower()`. -/
def pyLower (s : String) : String := ⟨s.data.map Char.toLower⟩

/-- `BlockchainService.validate_memo`: returns the
(is_valid, error_message, byte_length) triple of the source. -/
def validate_memo (memo : String) : Bool × Option String × Nat :=
  if memo = "" then (true, none, 0)
  else
    if memo.utf8ByteSize > 28 then
      (false,
       some ("Memo exceeds 28 bytes limit: " ++ toString memo.utf8ByteSize ++
             " bytes (Stellar limit)"),
       memo.utf8ByteSize)
    else (true, none, memo.utf8ByteSize)

/-- The `amount` field of a payload or invoice dict, as seen by `float(x)`:
either a value that parses, or one on which `float` raises `ValueError`. -/
inductive AmountField where
  | num (value : Rat)
  | malformed (raw : String)
deriving Repr, DecidableEq

/-- The exceptions the embedded code can raise. -/
inductive PyExn where
  | valueError
deriving Repr, DecidableEq

/-- `float(x)` applied to an amount field. -/
def parseAmount : AmountField → Except PyExn Rat
  | .num v => .ok v
  | .malformed _ => .error .valueError

/-- Invoice terms: the `{amount, merchantId, walletAddress}` dict registered by
`register_invoice` or passed inline as `invoice_data`; `.get(key, default)`
defaults are the fields' values when the key is absent. -/
structure Invoice where
  amount : AmountField
  merchantId : String
  walletAddress : String
deriving Repr, DecidableEq

/-- A `verify_transaction` request payload; each field carries the
`transaction_data.get(key, default)` default when the key is absent. -/
structure Payload where
  memo : String
  amount : AmountField
  merchant_id : String
  transaction_hash : String
  recipient : String
  invoice_id : String
  invoice_data : Option Invoice
deriving Repr, DecidableEq

/-- The record stored in `pending_transactions` on the success path. -/
structure PendingTx where
  memo : String
  amount : Rat
  merchant_id : String
  invoice_id : String
  transaction_hash : String
  recipient : String
  timestamp : Int
  status : String
deriving Repr, DecidableEq

/-- The payment-confirmed event broadcast to the notification sink. -/
structure Notification where
  ntype : String
  invoice_id : String
  merchant_id : String
  status : String
  amount : Rat
  transaction_hash : String
  timestamp : Int
  message : String
deriving Repr, DecidableEq

/-- The result dict of `verify_transaction`. Keys absent from a given return
dict take the default value declared here (`none` / `false`). -/
structure VerifyResult where
  status : String
  error_code : Option String := none
  message : String
  verified : Bool
  requires_invoice_data : Bool := false
  expected_amount : Option Rat := none
  received_amount : Option Rat := none
  difference : Option Rat := none
  transaction_id : Option String := none
  invoice_id : Option String := none
  amount_verified : Bool := false
  recipient_verified : Bool := false
  replay_protected : Bool := false
deriving Repr, DecidableEq, Inhabited

/-- The mutable service state read and written by `verify_transaction`:
the hibernation flag, the replay ledger `used_transactions`, the
`invoice_cache`, and the `pending_transactions` table. -/
structure ServiceState where
  circuit_breaker_open : Bool
  used_transactions : List (String × Int)
  invoice_cache : List (String × Invoice)
  pending_transactions : List (String × PendingTx)
deriving Repr, DecidableEq, Inhabited

/-- Python dict lookup `d.get(k)` on an insertion-ordered association list. -/
def dictGet {α : Type} : List (String × α) → String → Option α
  | [], _ => none
  | (k', v) :: rest, k => if k' = k then some v else dictGet rest k

/-- Python dict assignment `d[k] = v`: replace in place, or append. -/
def dictSet {α : Type} : List (String × α) → String → α → List (String × α)
  | [], k, v => [(k, v)]
  | (k', v') :: rest, k, v =>
      if k' = k then (k, v) :: rest else (k', v') :: dictSet rest k v

/-- `memo = transaction_data.get("memo", "").strip()`. -/
def memoOf (p : Payload) : String := pyStrip p.memo

/-- `recipient_address = transaction_data.get("recipient", "").strip()`. -/
def recipientOf (p : Payload) : String := pyStrip p.recipient

/-- `invoice_id_from_memo = memo if memo.startswith("INV-") else invoice_id`. -/
def invoiceIdFromMemo (p : Payload) : String :=
  if strStarts (memoOf p) "INV-" = true then memoOf p else p.invoice_id

/-- `invoice_data = transaction_data.get("invoice_data") or
self.invoice_cache.get(invoice_id_from_memo)`. -/
def resolveInvoiceData (s : ServiceState) (p : Payload) : Option Invoice :=
  match p.invoice_data with
  | some d => some d
  | none => dictGet s.invoice_cache (invoiceIdFromMemo p)

/-- `TOLERANCE = 0.0000001`. -/
def TOLERANCE : Rat := mkRat 1 10000000

/-- `timedelta(days=30)` in seconds. -/
def THIRTY_DAYS : Int := 2592000

/-- The composite id `f"{merchant_id}_{invoice_id_from_memo}_{int(...)}"`. -/
def txIdOf (p : Payload) (now : Int) : String :=
  p.merchant_id ++ "_" ++ invoiceIdFromMemo p ++ "_" ++ toString now

/-- The success-path update of `used_transactions`: record the hash (when
non-empty) and opportunistically prune entries older than 30 days. -/
def commitUsed (s : ServiceState) (p : Payload) (now : Int) : List (String × Int) :=
  if p.transaction_hash ≠ "" then
    (dictSet s.used_transactions p.transaction_hash now).filter
      (fun e => e.2 > now - THIRTY_DAYS)
  else s.used_transactions

/-- The `pending_transactions` record written on success. -/
def pendingEntry (p : Payload) (tx_amount : Rat) (now : Int) : PendingTx :=
  { memo := memoOf p, amount := tx_amount, merchant_id := p.merchant_id,
    invoice_id := invoiceIdFromMemo p, transaction_hash := p.transaction_hash,
    recipient := recipientOf p, timestamp := now, status := "verified" }

/-- The service state after the success path commits. -/
def successState (s : ServiceState) (p : Payload) (tx_amount : Rat) (now : Int) :
    ServiceState :=
  { s with used_transactions := commitUsed s p now,
           pending_transactions :=
             dictSet s.pending_transactions (txIdOf p now) (pendingEntry p tx_amount now) }

/-- The `payment_confirmed` event sent on success. -/
def successNotification (p : Payload) (tx_amount : Rat) (now : Int) : Notification :=
  { ntype := "payment_confirmed", invoice_id := invoiceIdFromMemo p,
    merchant_id := p.merchant_id, status := "paid", amount := tx_amount,
    transaction_hash := p.transaction_hash, timestamp := now,
    message := "Payment confirmed successfully" }

/-- The hibernation-gate result dict. -/
def hibernationResult : VerifyResult :=
  { status := "hibernation",
    message := "Blockchain service is in hibernation mode. Payments paused.",
    verified := false }

/-- The `REPLAY_DETECTED` result dict. -/
def replayResult : VerifyResult :=
  { status := "error", error_code := some "REPLAY_DETECTED",
    message := "This transaction has already been processed. Replay attack prevented.",
    verified := false }

/-- The `MEMO_TOO_LONG` result dict, carrying `validate_memo`'s message. -/
def memoTooLongResult (msg : String) : VerifyResult :=
  { status := "error", error_code := some "MEMO_TOO_LONG", message := msg,
    verified := false }

/-- The `INVALID_MEMO` result dict. -/
def invalidMemoResult : VerifyResult :=
  { status := "error", error_code := some "INVALID_MEMO",
    message := "Invoice ID not found in memo", verified := false }

/-- The `INVOICE_NOT_FOUND` result dict. -/
def invoiceNotFoundResult (invoice_id_from_memo : String) : VerifyResult :=
  { status := "pending", error_code := some "INVOICE_NOT_FOUND",
    message := "Invoice " ++ invoice_id_from_memo ++ " not found. Please provide invoice data.",
    verified := false, requires_invoice_data := true }

/-- The `UNDERPAID` result dict. -/
def underpaidResult (invoice_amount tx_amount : Rat) : VerifyResult :=
  { status := "error", error_code := some "UNDERPAID",
    message := "Payment amount (" ++ toString tx_amount ++
      " Pi) is less than invoice amount (" ++ toString invoice_amount ++ " Pi)",
    verified := false,
    expected_amount := some invoice_amount, received_amount := some tx_amount,
    difference := some (invoice_amount - tx_amount) }

/-- The `WRONG_RECIPIENT` result dict. -/
def wrongRecipientResult (recipient_address merchant_wallet : String) : VerifyResult :=
  { status := "error", error_code := some "WRONG_RECIPIENT",
    message := "Transaction recipient (" ++ recipient_address ++
      ") does not match merchant wallet (" ++ merchant_wallet ++ ")",
    verified := false }

/-- The `MERCHANT_MISMATCH` result dict. -/
def merchantMismatchResult : VerifyResult :=
  { status := "error", error_code := some "MERCHANT_MISMATCH",
    message := "Transaction merchant ID does not match invoice merchant",
    verified := false }

/-- The success result dict. -/
def successResult (p : Payload) (now : Int) : VerifyResult :=
  { status := "verified", transaction_id := some (txIdOf p now),
    invoice_id := some (invoiceIdFromMemo p), verified := true,
    message := "Transaction verified successfully",
    amount_verified := true, recipient_verified := true, replay_protected := true }

/-- `BlockchainService.verify_transaction`: the full pipeline, in source order:
hibernation gate, field extraction (where `float` can raise), anti-replay
pre-check, memo validation, invoice-id resolution, invoice-terms resolution
(where `float` on the invoice amount can raise), amount check, recipient
check, merchant check, then the commit and the fire-and-forget notification.
Returns the result dict, the post state, and the list of emitted events. -/
def verify_transaction (s : ServiceState) (p : Payload) (now : Int) :
    Except PyExn (VerifyResult × ServiceState × List Notification) :=
  if s.circuit_breaker_open then .ok (hibernationResult, s, [])
  else
    match parseAmount p.amount with
    | .error e => .error e
    | .ok tx_amount =>
      if p.transaction_hash ≠ "" ∧ (dictGet s.used_transactions p.transaction_hash).isSome = true then
        .ok (replayResult, s, [])
      else
        if (validate_memo (memoOf p)).1 = false then
          .ok (memoTooLongResult ((validate_memo (memoOf p)).2.1.getD ""), s, [])
        else
          if invoiceIdFromMemo p = "" then .ok (invalidMemoResult, s, [])
          else
            match resolveInvoiceData s p with
            | none => .ok (invoiceNotFoundResult (invoiceIdFromMemo p), s, [])
            | some invoice_data =>
              match parseAmount invoice_data.amount with
              | .error e => .error e
              | .ok invoice_amount =>
                if tx_amount < invoice_amount - TOLERANCE then
                  .ok (underpaidResult invoice_amount tx_amount, s, [])
                else
                  if recipientOf p ≠ "" ∧ invoice_data.walletAddress ≠ "" ∧
                      pyLower (recipientOf p) ≠ pyLower invoice_data.walletAddress then
                    .ok (wrongRecipientResult (recipientOf p) invoice_data.walletAddress, s, [])
                  else
                    if p.merchant_id ≠ "" ∧ invoice_data.merchantId ≠ "" ∧
                        p.merchant_id ≠ invoice_data.merchantId then
                      .ok (merchantMismatchResult, s, [])
                    else
                      .ok (successResult p now, successState s p tx_amount now,
                           [successNotification p tx_amount now])

/-- The result component of a `verify_transaction` outcome (junk on `.error`). -/
def exRes (x : Except PyExn (VerifyResult × ServiceState × List Notification)) :
    VerifyResult :=
  match x with
  | .ok (r, _, _) => r
  | .error _ => default

/-- The post-state component of a `verify_transaction` outcome (junk on `.error`). -/
def exState (x : Except PyExn (VerifyResult × ServiceState × List Notification)) :
    ServiceState :=
  match x with
  | .ok (_, s, _) => s
  | .error _ => default

/-! Path lemmas: one lemma per early return of `verify_transaction`. -/

lemma verify_path_hibernation (s : ServiceState) (p : Payload) (now : Int)
    (hflag : s.circuit_breaker_open = true) :
    verify_transaction s p now = .ok (hibernationResult, s, []) := by
  unfold verify_transaction
  simp [hflag]

lemma verify_path_replay (s : ServiceState) (p : Payload) (now : Int) (q : Rat)
    (hflag : s.circuit_breaker_open = false)
    (hq : parseAmount p.amount = .ok q)
    (hhash : p.transaction_hash ≠ "")
    (hmem : (dictGet s.used_transactions p.transaction_hash).isSome = true) :
    verify_transaction s p now = .ok (replayResult, s, []) := by
  unfold verify_transaction
  simp only [hflag, hq, Bool.false_eq_true, if_false]
  rw [if_pos ⟨hhash, hmem⟩]

lemma verify_path_memo_too_long (s : ServiceState) (p : Payload) (now : Int) (q : Rat)
    (hflag : s.circuit_breaker_open = false)
    (hq : parseAmount p.amount = .ok q)
    (hnorep : ¬(p.transaction_hash ≠ "" ∧
      (dictGet s.used_transactions p.transaction_hash).isSome = true))
    (hvm : (validate_memo (memoOf p)).1 = false) :
    verify_transaction s p now =
      .ok (memoTooLongResult ((validate_memo (memoOf p)).2.1.getD ""), s, []) := by
  unfold verify_transaction
  simp only [hflag, hq, Bool.false_eq_true, if_false]
  rw [if_neg hnorep, if_pos hvm]

lemma verify_path_invalid_memo (s : ServiceState) (p : Payload) (now : Int) (q : Rat)
    (hflag : s.circuit_breaker_open = false)
    (hq : parseAmount p.amount = .ok q)
    (hnorep : ¬(p.transaction_hash ≠ "" ∧
      (dictGet s.used_transactions p.transaction_hash).isSome = true))
    (hvm : (validate_memo (memoOf p)).1 = true)
    (hid : invoiceIdFromMemo p = "") :
    verify_transaction s p now = .ok (invalidMemoResult, s, []) := by
  unfold verify_transaction
  simp only [hflag, hq, Bool.false_eq_true, if_false]
  rw [if_neg hnorep, if_neg (by simp [hvm]), if_pos hid]

lemma verify_path_invoice_not_found (s : ServiceState) (p : Payload) (now : Int) (q : Rat)
    (hflag : s.circuit_breaker_open = false)
    (hq : parseAmount p.amount = .ok q)
    (hnorep : ¬(p.transaction_hash ≠ "" ∧
      (dictGet s.used_transactions p.transaction_hash).isSome = true))
    (hvm : (validate_memo (memoOf p)).1 = true)
    (hid : invoiceIdFromMemo p ≠ "")
    (hres : resolveInvoiceData s p = none) :
    verify_transaction s p now = .ok (invoiceNotFoundResult (invoiceIdFromMemo p), s, []) := by
  unfold verify_transaction
  simp only [hflag, hq, Bool.false_eq_true, if_false]
  rw [if_neg hnorep, if_neg (by simp [hvm]), if_neg hid]
  simp only [hres]

lemma verify_path_underpaid (s : ServiceState) (p : Payload) (now : Int) (q : Rat)
    (inv : Invoice) (A : Rat)
    (hflag : s.circuit_breaker_open = false)
    (hq : parseAmount p.amount = .ok q)
    (hnorep : ¬(p.transaction_hash ≠ "" ∧
      (dictGet s.used_transactions p.transaction_hash).isSome = true))
    (hvm : (validate_memo (memoOf p)).1 = true)
    (hid : invoiceIdFromMemo p ≠ "")
    (hres : resolveInvoiceData s p = some inv)
    (hA : parseAmount inv.amount = .ok A)
    (hlt : q < A - TOLERANCE) :
    verify_transaction s p now = .ok (underpaidResult A q, s, []) := by
  unfold verify_transaction
  simp only [hflag, hq, Bool.false_eq_true, if_false]
  rw [if_neg hnorep, if_neg (by simp [hvm]), if_neg hid]
  simp only [hres, hA]
  rw [if_pos hlt]

lemma verify_path_wrong_recipient (s : ServiceState) (p : Payload) (now : Int) (q : Rat)
    (inv : Invoice) (A : Rat)
    (hflag : s.circuit_breaker_open = false)
    (hq : parseAmount p.amount = .ok q)
    (hnorep : ¬(p.transaction_hash ≠ "" ∧
      (dictGet s.used_transactions p.transaction_hash).isSome = true))
    (hvm : (validate_memo (memoOf p)).1 = true)
    (hid : invoiceIdFromMemo p ≠ "")
    (hres : resolveInvoiceData s p = some inv)
    (hA : parseAmount inv.amount = .ok A)
    (hge : ¬(q < A - TOLERANCE))
    (hrec : recipientOf p ≠ "" ∧ inv.walletAddress ≠ "" ∧
      pyLower (recipientOf p) ≠ pyLower inv.walletAddress) :
    verify_transaction s p now =
      .ok (wrongRecipientResult (recipientOf p) inv.walletAddress, s, []) := by
  unfold verify_transaction
  simp only [hflag, hq, Bool.false_eq_true, if_false]
  rw [if_neg hnorep, if_neg (by simp [hvm]), if_neg hid]
  simp only [hres, hA]
  rw [if_neg hge, if_pos hrec]

lemma verify_path_merchant_mismatch (s : ServiceState) (p : Payload) (now : Int) (q : Rat)
    (inv : Invoice) (A : Rat)
    (hflag : s.circuit_breaker_open = false)
    (hq : parseAmount p.amount = .ok q)
    (hnorep : ¬(p.transaction_hash ≠ "" ∧
      (dictGet s.used_transactions p.transaction_hash).isSome = true))
    (hvm : (validate_memo (memoOf p)).1 = true)
    (hid : invoiceIdFromMemo p ≠ "")
    (hres : resolveInvoiceData s p = some inv)
    (hA : parseAmount inv.amount = .ok A)
    (hge : ¬(q < A - TOLERANCE))
    (hrec : ¬(recipientOf p ≠ "" ∧ inv.walletAddress ≠ "" ∧
      pyLower (recipientOf p) ≠ pyLower inv.walletAddress))
    (hmer : p.merchant_id ≠ "" ∧ inv.merchantId ≠ "" ∧ p.merchant_id ≠ inv.merchantId) :
    verify_transaction s p now = .ok (merchantMismatchResult, s, []) := by
  unfold verify_transaction
  simp only [hflag, hq, Bool.false_eq_true, if_false]
  rw [if_neg hnorep, if_neg (by simp [hvm]), if_neg hid]
  simp only [hres, hA]
  rw [if_neg hge, if_neg hrec, if_pos hmer]

lemma verify_path_success (s : ServiceState) (p : Payload) (now : Int) (q : Rat)
    (inv : Invoice) (A : Rat)
    (hflag : s.circuit_breaker_open = false)
    (hq : parseAmount p.amount = .ok q)
    (hnorep : ¬(p.transaction_hash ≠ "" ∧
      (dictGet s.used_transactions p.transaction_hash).isSome = true))
    (hvm : (validate_memo (memoOf p)).1 = true)
    (hid : invoiceIdFromMemo p ≠ "")
    (hres : resolveInvoiceData s p = some inv)
    (hA : parseAmount inv.amount = .ok A)
    (hge : ¬(q < A - TOLERANCE))
    (hrec : ¬(recipientOf p ≠ "" ∧ inv.walletAddress ≠ "" ∧
      pyLower (recipientOf p) ≠ pyLower inv.walletAddress))
    (hmer : ¬(p.merchant_id ≠ "" ∧ inv.merchantId ≠ "" ∧
      p.merchant_id ≠ inv.merchantId)) :
    verify_transaction s p now =
      .ok (successResult p now, successState s p q now, [successNotification p q now]) := by
  unfold verify_transaction
  simp only [hflag, hq, Bool.false_eq_true, if_false]
  rw [if_neg hnorep, if_neg (by simp [hvm]), if_neg hid]
  simp only [hres, hA]
  rw [if_neg hge, if_neg hrec, if_neg hmer]

/-- Inversion: a `verified=true` outcome can only come from the success leaf;
it pins down the result, the post state and the notification. -/
lemma verify_verified_inv (s : ServiceState) (p : Payload) (now : Int)
    (r : VerifyResult) (s' : ServiceState) (ns : List Notification)
    (h : verify_transaction s p now = .ok (r, s', ns)) (hv : r.verified = true) :
    ∃ q inv A, parseAmount p.amount = .ok q ∧ resolveInvoiceData s p = some inv ∧
      parseAmount inv.amount = .ok A ∧ s.circuit_breaker_open = false ∧
      ¬(p.transaction_hash ≠ "" ∧
        (dictGet s.used_transactions p.transaction_hash).isSome = true) ∧
      r = successResult p now ∧ s' = successState s p q now ∧
      ns = [successNotification p q now] := by
  unfold verify_transaction at h
  split at h
  · simp only [Except.ok.injEq, Prod.mk.injEq] at h
    obtain ⟨rfl, rfl, rfl⟩ := h
    simp [hibernationResult] at hv
  · rename_i hflag
    split at h
    · simp at h
    · rename_i q hq
      split at h
      · simp only [Except.ok.injEq, Prod.mk.injEq] at h
        obtain ⟨rfl, rfl, rfl⟩ := h
        simp [replayResult] at hv
      · rename_i hnorep
        split at h
        · simp only [Except.ok.injEq, Prod.mk.injEq] at h
          obtain ⟨rfl, rfl, rfl⟩ := h
          simp [memoTooLongResult] at hv
        · split at h
          · simp only [Except.ok.injEq, Prod.mk.injEq] at h
            obtain ⟨rfl, rfl, rfl⟩ := h
            simp [invalidMemoResult] at hv
          · split at h
            · simp only [Except.ok.injEq, Prod.mk.injEq] at h
              obtain ⟨rfl, rfl, rfl⟩ := h
              simp [invoiceNotFoundResult] at hv
            · rename_i inv hres
              split at h
              · simp at h
              · rename_i A hA
                split at h
                · simp only [Except.ok.injEq, Prod.mk.injEq] at h
                  obtain ⟨rfl, rfl, rfl⟩ := h
                  simp [underpaidResult] at hv
                · split at h
                  · simp only [Except.ok.injEq, Prod.mk.injEq] at h
                    obtain ⟨rfl, rfl, rfl⟩ := h
                    simp [wrongRecipientResult] at hv
                  · split at h
                    · simp only [Except.ok.injEq, Prod.mk.injEq] at h
                      obtain ⟨rfl, rfl, rfl⟩ := h
                      simp [merchantMismatchResult] at hv
                    · simp only [Except.ok.injEq, Prod.mk.injEq] at h
                      obtain ⟨rfl, rfl, rfl⟩ := h
                      exact ⟨q, inv, A, hq, hres, hA, by simpa using hflag, hnorep,
                        rfl, rfl, rfl⟩

/-- Inversion: every returned (not raised) non-verified outcome leaves the
state untouched and emits nothing. -/
lemma verify_not_verified_inv (s : ServiceState) (p : Payload) (now : Int)
    (r : VerifyResult) (s' : ServiceState) (ns : List Notification)
    (h : verify_transaction s p now = .ok (r, s', ns)) (hv : r.verified = false) :
    s' = s ∧ ns = [] := by
  unfold verify_transaction at h
  split at h
  · simp only [Except.ok.injEq, Prod.mk.injEq] at h
    exact ⟨h.2.1.symm, h.2.2.symm⟩
  · split at h
    · simp at h
    · split at h
      · simp only [Except.ok.injEq, Prod.mk.injEq] at h
        exact ⟨h.2.1.symm, h.2.2.symm⟩
      · split at h
        · simp only [Except.ok.injEq, Prod.mk.injEq] at h
          exact ⟨h.2.1.symm, h.2.2.symm⟩
        · split at h
          · simp only [Except.ok.injEq, Prod.mk.injEq] at h
            exact ⟨h.2.1.symm, h.2.2.symm⟩
          · split at h
            · simp only [Except.ok.injEq, Prod.mk.injEq] at h
              exact ⟨h.2.1.symm, h.2.2.symm⟩
            · split at h
              · simp at h
              · split at h
                · simp only [Except.ok.injEq, Prod.mk.injEq] at h
                  exact ⟨h.2.1.symm, h.2.2.symm⟩
                · split at h
                  · simp only [Except.ok.injEq, Prod.mk.injEq] at h
                    exact ⟨h.2.1.symm, h.2.2.symm⟩
                  · split at h
                    · simp only [Except.ok.injEq, Prod.mk.injEq] at h
                      exact ⟨h.2.1.symm, h.2.2.symm⟩
                    · simp only [Except.ok.injEq, Prod.mk.injEq] at h
                      obtain ⟨rfl, rfl, rfl⟩ := h
                      simp [successResult] at hv

/-- Inversion: the only way `verify_transaction` raises is `float()` on an
amount field, either the transaction's or the resolved invoice's. -/
lemma verify_error_inv (s : ServiceState) (p : Payload) (now : Int) (e : PyExn)
    (h : verify_transaction s p now = .error e) :
    s.circuit_breaker_open = false ∧ e = .valueError ∧
      (parseAmount p.amount = .error e ∨
        ∃ q inv, parseAmount p.amount = .ok q ∧ resolveInvoiceData s p = some inv ∧
          parseAmount inv.amount = .error e) := by
  have he : e = .valueError := by cases e; rfl
  unfold verify_transaction at h
  split at h
  · simp at h
  · rename_i hflag
    split at h
    · rename_i herr
      injection h with h1
      exact ⟨by simpa using hflag, he, Or.inl (by rw [herr, h1])⟩
    · rename_i q hq
      split at h
      · simp at h
      · split at h
        · simp at h
        · split at h
          · simp at h
          · split at h
            · simp at h
            · rename_i inv hres
              split at h
              · rename_i herr
                injection h with h1
                exact ⟨by simpa using hflag, he,
                  Or.inr ⟨q, inv, hq, hres, by rw [herr, h1]⟩⟩
              · split at h
                · simp at h
                · split at h
                  · simp at h
                  · split at h
                    · simp at h
                    · simp at h

lemma dictGet_dictSet_self {α : Type} (d : List (String × α)) (k : String) (v : α) :
    dictGet (dictSet d k v) k = some v := by
  induction d with
  | nil => simp [dictSet, dictGet]
  | cons hd tl ih =>
    obtain ⟨k', v'⟩ := hd
    by_cases hk : k' = k
    · subst hk; simp [dictSet, dictGet]
    · simp [dictSet, hk, dictGet, ih]

lemma dictGet_filter_dictSet (d : List (String × Int)) (k : String) (v : Int)
    (pred : String × Int → Bool) (hp : pred (k, v) = true) :
    dictGet ((dictSet d k v).filter pred) k = some v := by
  induction d with
  | nil => simp [dictSet, List.filter_cons, hp, dictGet]
  | cons hd tl ih =>
    obtain ⟨k', v'⟩ := hd
    by_cases hk : k' = k
    · subst hk
      simp [dictSet, List.filter_cons, hp, dictGet]
    · simp only [dictSet, hk, if_false, List.filter_cons]
      by_cases hpred : pred (k', v') = true
      · simp [hpred, dictGet, hk, ih]
      · simp [hpred, ih]

/-- Full functional specification of `validate_memo`: validity is exactly the
28-byte bound, the reported length is the UTF-8 byte length, and an over-long
memo carries the formatted message containing that byte count. -/
lemma validate_memo_spec (m : String) :
    ((validate_memo m).1 = true ↔ m.utf8ByteSize ≤ 28)
    ∧ (validate_memo m).2.2 = m.utf8ByteSize
    ∧ (28 < m.utf8ByteSize →
        (validate_memo m).2.1 =
          some ("Memo exceeds 28 bytes limit: " ++ toString m.utf8ByteSize ++
            " bytes (Stellar limit)"))
    ∧ (m.utf8ByteSize ≤ 28 → (validate_memo m).2.1 = none) := by
  unfold validate_memo
  by_cases hm : m = ""
  · subst hm
    have h0 : ("" : String).utf8ByteSize = 0 := rfl
    rw [if_pos rfl]
    refine ⟨?_, ?_, ?_, ?_⟩
    · rw [h0]; simp
    · rw [h0]
    · rw [h0]; intro h; omega
    · intro _; rfl
  · rw [if_neg hm]
    by_cases h28 : m.utf8ByteSize > 28
    · rw [if_pos h28]
      refine ⟨⟨fun h => absurd h (by simp), fun hle => by omega⟩, rfl,
        fun _ => rfl, fun hle => by omega⟩
    · rw [if_neg h28]
      exact ⟨⟨fun _ => by omega, fun _ => rfl⟩, rfl, fun hgt => by omega, fun _ => rfl⟩

/-- A sequence of `record_failure` calls at the given times, oldest first. -/
def applyFailures (ts : List Int) (cb : CircuitBreaker) : CircuitBreaker :=
  ts.foldl (fun c t => c.record_failure t) cb

lemma record_failure_count (cb : CircuitBreaker) (t : Int) :
    (cb.record_failure t).failure_count = cb.failure_count + 1 := by
  unfold CircuitBreaker.record_failure
  split <;> rfl

lemma record_failure_threshold (cb : CircuitBreaker) (t : Int) :
    (cb.record_failure t).failure_threshold = cb.failure_threshold := by
  unfold CircuitBreaker.record_failure
  split <;> rfl

lemma record_failure_timeout (cb : CircuitBreaker) (t : Int) :
    (cb.record_failure t).timeout = cb.timeout := by
  unfold CircuitBreaker.record_failure
  split <;> rfl

lemma record_failure_lft (cb : CircuitBreaker) (t : Int) :
    (cb.record_failure t).last_failure_time = some t := by
  unfold CircuitBreaker.record_failure
  split <;> rfl

lemma record_failure_state_open (cb : CircuitBreaker) (t : Int)
    (h : cb.failure_threshold ≤ cb.failure_count + 1) :
    (cb.record_failure t).state = "open" := by
  unfold CircuitBreaker.record_failure
  rw [if_pos h]

lemma applyFailures_count (ts : List Int) (cb : CircuitBreaker) :
    (applyFailures ts cb).failure_count = cb.failure_count + ts.length := by
  induction ts generalizing cb with
  | nil => simp [applyFailures]
  | cons t ts ih =>
    show (applyFailures ts (cb.record_failure t)).failure_count = _
    rw [ih, record_failure_count]
    simp
    omega

lemma applyFailures_threshold (ts : List Int) (cb : CircuitBreaker) :
    (applyFailures ts cb).failure_threshold = cb.failure_threshold := by
  induction ts generalizing cb with
  | nil => rfl
  | cons t ts ih =>
    show (applyFailures ts (cb.record_failure t)).failure_threshold = _
    rw [ih, record_failure_threshold]

lemma applyFailures_timeout (ts : List Int) (cb : CircuitBreaker) :
    (applyFailures ts cb).timeout = cb.timeout := by
  induction ts generalizing cb with
  | nil => rfl
  | cons t ts ih =>
    show (applyFailures ts (cb.record_failure t)).timeout = _
    rw [ih, record_failure_timeout]

lemma applyFailures_lft (ts : List Int) (cb : CircuitBreaker) (tl : Int)
    (h : ts.getLast? = some tl) :
    (applyFailures ts cb).last_failure_time = some tl := by
  induction ts generalizing cb with
  | nil => simp at h
  | cons t ts ih =>
    cases ts with
    | nil =>
      simp at h
      subst h
      show (cb.record_failure t).last_failure_time = some t
      exact record_failure_lft cb t
    | cons t2 ts2 =>
      rw [List.getLast?_cons_cons] at h
      exact ih (cb.record_failure t) h

lemma applyFailures_state_open (ts : List Int) (cb : CircuitBreaker)
    (hne : ts ≠ [])
    (h : cb.failure_threshold ≤ cb.failure_count + ts.length) :
    (applyFailures ts cb).state = "open" := by
  induction ts generalizing cb with
  | nil => exact absurd rfl hne
  | cons t ts ih =>
    cases ts with
    | nil =>
      show (cb.record_failure t).state = "open"
      exact record_failure_state_open cb t (by simpa using h)
    | cons t2 ts2 =>
      show (applyFailures (t2 :: ts2) (cb.record_failure t)).state = "open"
      refine ih (cb.record_failure t) (by simp) ?_
      rw [record_failure_threshold, record_failure_count]
      simp at h ⊢
      omega

lemma can_attempt_closed (cb : CircuitBreaker) (now : Int) (h : cb.state = "closed") :
    cb.can_attempt now = (true, cb) := by
  unfold CircuitBreaker.can_attempt
  rw [if_pos h]

lemma can_attempt_half_open (cb : CircuitBreaker) (now : Int) (h : cb.state = "half_open") :
    cb.can_attempt now = (true, cb) := by
  unfold CircuitBreaker.can_attempt
  rw [if_neg (by simp [h]), if_neg (by simp [h])]

lemma can_attempt_open_ready (cb : CircuitBreaker) (now t : Int)
    (h : cb.state = "open") (hlft : cb.last_failure_time = some t)
    (helapsed : t + (cb.timeout : Int) ≤ now) :
    cb.can_attempt now = (true, { cb with state := "half_open" }) := by
  unfold CircuitBreaker.can_attempt
  rw [if_neg (by simp [h]), if_pos h]
  simp only [hlft]
  rw [if_pos (by omega)]

lemma can_attempt_open_early (cb : CircuitBreaker) (now t : Int)
    (h : cb.state = "open") (hlft : cb.last_failure_time = some t)
    (helapsed : now < t + (cb.timeout : Int)) :
    cb.can_attempt now = (false, cb) := by
  unfold CircuitBreaker.can_attempt
  rw [if_neg (by simp [h]), if_pos h]
  simp only [hlft]
  rw [if_neg (by omega)]

/-! Probe-loop lemmas for the hibernation-flag invariant. -/

lemma tryPublicApi_cases (o : ProbeOutcome) (now : Int) (s : ProbeState) :
    ((tryPublicApi o now s).2.current_mode = s.current_mode ∧
      (tryPublicApi o now s).2.circuit_breaker_open = s.circuit_breaker_open) ∨
    (o = .status 200 ∧ (tryPublicApi o now s).1 = some true ∧
      (tryPublicApi o now s).2.current_mode = NodeMode.PUBLIC ∧
      (tryPublicApi o now s).2.circuit_breaker_open = false) := by
  cases o with
  | status code =>
    simp only [tryPublicApi]
    by_cases h200 : code = 200
    · subst h200
      rw [if_pos rfl]
      by_cases hH : s.current_mode = NodeMode.HIBERNATION
      · rw [if_pos hH]
        right
        exact ⟨rfl, rfl, rfl, rfl⟩
      · rw [if_neg hH]
        left
        exact ⟨rfl, rfl⟩
    · rw [if_neg h200]
      by_cases h5 : code = 500 ∨ code = 503
      · rw [if_pos h5]
        left
        exact ⟨rfl, rfl⟩
      · rw [if_neg h5]
        left
        exact ⟨rfl, rfl⟩
  | netError =>
    left
    exact ⟨rfl, rfl⟩

lemma localPhase_flag (env : ProbeEnv) (s0 : ProbeState) :
    (localPhase env s0).circuit_breaker_open = s0.circuit_breaker_open := by
  unfold localPhase
  split
  · split <;> rfl
  · rfl

lemma localPhase_mode_hib (env : ProbeEnv) (s0 : ProbeState)
    (h : (localPhase env s0).current_mode = NodeMode.HIBERNATION) :
    s0.current_mode = NodeMode.HIBERNATION := by
  unfold localPhase at h
  split at h
  · split at h
    · simp at h
    · exact h
  · exact h

lemma publicPhase_hib_flag (env : ProbeEnv) (s1 : ProbeState)
    (ih : s1.current_mode = NodeMode.HIBERNATION → s1.circuit_breaker_open = true) :
    (publicPhase env s1).current_mode = NodeMode.HIBERNATION →
    (publicPhase env s1).circuit_breaker_open = true := by
  unfold publicPhase
  split
  · split
    · split
      · intro _
        rfl
      · rename_i hne hmode
        intro _
        rcases tryPublicApi_cases env.publicOutcome env.now s1 with ⟨hm, hf⟩ | ⟨_, h1, _, _⟩
        · rw [hf]
          exact ih (hm ▸ not_not.mp hmode)
        · exact absurd h1 hne
    · rename_i hok
      intro hH
      rcases tryPublicApi_cases env.publicOutcome env.now s1 with ⟨hm, hf⟩ | ⟨_, _, hm, _⟩
      · rw [hf]
        exact ih (hm ▸ hH)
      · rw [hm] at hH
        simp at hH
  · exact ih

lemma publicPhase_flag_set (env : ProbeEnv) (s1 : ProbeState)
    (hflag : s1.circuit_breaker_open = false)
    (h : (publicPhase env s1).circuit_breaker_open = true) :
    (publicPhase env s1).current_mode = NodeMode.HIBERNATION := by
  unfold publicPhase at h ⊢
  split at h <;> rename_i hguard
  · split at h <;> rename_i hne
    · split at h <;> rename_i hmode
      · simp [hguard, hne, hmode]
      · rcases tryPublicApi_cases env.publicOutcome env.now s1 with ⟨_, hf⟩ | ⟨_, h1, _, _⟩
        · rw [hf, hflag] at h
          simp at h
        · exact absurd h1 hne
    · rcases tryPublicApi_cases env.publicOutcome env.now s1 with ⟨_, hf⟩ | ⟨_, _, _, hf⟩
      · rw [hf, hflag] at h
        simp at h
      · rw [hf] at h
        simp at h
  · rw [hflag] at h
    simp at h

lemma publicPhase_flag_clear (env : ProbeEnv) (s1 : ProbeState)
    (hflag : s1.circuit_breaker_open = true)
    (h : (publicPhase env s1).circuit_breaker_open = false) :
    env.publicOutcome = .status 200 ∧
      (publicPhase env s1).current_mode = NodeMode.PUBLIC := by
  unfold publicPhase at h ⊢
  split at h <;> rename_i hguard
  · split at h <;> rename_i hne
    · split at h <;> rename_i hmode
      · simp at h
      · rcases tryPublicApi_cases env.publicOutcome env.now s1 with ⟨_, hf⟩ | ⟨_, h1, _, _⟩
        · rw [hf, hflag] at h
          simp at h
        · exact absurd h1 hne
    · rcases tryPublicApi_cases env.publicOutcome env.now s1 with ⟨_, hf⟩ | ⟨ho, h1, hm, _⟩
      · rw [hf, hflag] at h
        simp at h
      · refine ⟨ho, ?_⟩
        rw [if_pos hguard, if_neg (by simpa using h1)]
        exact hm
  · rw [hflag] at h
    simp at h

lemma step_hib_flag (env : ProbeEnv) (s : ProbeState)
    (ih : s.current_mode = NodeMode.HIBERNATION → s.circuit_breaker_open = true) :
    (checkPendingTransactions env s).current_mode = NodeMode.HIBERNATION →
    (checkPendingTransactions env s).circuit_breaker_open = true := by
  unfold checkPendingTransactions
  split
  · split
    · intro _
      rfl
    · rename_i hmode
      intro _
      exact ih (not_not.mp hmode)
  · apply publicPhase_hib_flag
    intro hH
    rw [localPhase_flag]
    have hs0 := localPhase_mode_hib env _ hH
    exact ih hs0

/-- The hibernation-flag invariant: in every reachable probe state,
HIBERNATION mode implies the externally visible flag is set. -/
lemma probe_inv (s : ProbeState) (h : ReachableProbe s) :
    s.current_mode = NodeMode.HIBERNATION → s.circuit_breaker_open = true := by
  induction h with
  | init =>
    intro hm
    simp [initialProbeState] at hm
  | step env _ ih =>
    exact step_hib_flag _ _ ih

lemma step_flag_set (env : ProbeEnv) (s : ProbeState)
    (hflag : s.circuit_breaker_open = false)
    (h : (checkPendingTransactions env s).circuit_breaker_open = true) :
    (checkPendingTransactions env s).current_mode = NodeMode.HIBERNATION := by
  unfold checkPendingTransactions at h ⊢
  split at h <;> rename_i hatt
  · split at h <;> rename_i hmode
    · simp [hatt, hmode]
    · rw [hflag] at h
      simp at h
  · rw [if_neg (by simpa using hatt)]
    exact publicPhase_flag_set env _ (by rw [localPhase_flag]; exact hflag) h

lemma step_flag_clear (env : ProbeEnv) (s : ProbeState)
    (hflag : s.circuit_breaker_open = true)
    (h : (checkPendingTransactions env s).circuit_breaker_open = false) :
    env.publicOutcome = .status 200 ∧
      (checkPendingTransactions env s).current_mode = NodeMode.PUBLIC := by
  unfold checkPendingTransactions at h ⊢
  split at h <;> rename_i hatt
  · split at h <;> rename_i hmode
    · simp at h
    · rw [hflag] at h
      simp at h
  · rw [if_neg (by simpa using hatt)]
    exact publicPhase_flag_clear env _ (by rw [localPhase_flag]; exact hflag) h

/-- On the success path with a non-empty hash, the hash is recorded in the
replay ledger with the commit time. -/
lemma verified_hash_recorded (s : ServiceState) (p : Payload) (now : Int)
    (r : VerifyResult) (s' : ServiceState) (ns : List Notification)
    (h : verify_transaction s p now = .ok (r, s', ns)) (hv : r.verified = true)
    (hh : p.transaction_hash ≠ "") :
    dictGet s'.used_transactions p.transaction_hash = some now := by
  obtain ⟨q, inv, A, _, _, _, _, _, _, hs, _⟩ := verify_verified_inv s p now r s' ns h hv
  subst hs
  show dictGet (commitUsed s p now) p.transaction_hash = some now
  unfold commitUsed
  rw [if_pos hh]
  apply dictGet_filter_dictSet
  simp only [decide_eq_true_eq, THIRTY_DAYS]
  omega

/-- Claim C1 (amended): once `verify_transaction` returns verified=true for a
payload with non-empty hash h, h is recorded in the replay ledger; and every
call carrying h made while the service is not hibernating, with a parseable
amount, and while h is still present in the ledger returns REPLAY_DETECTED
with verified=false and leaves the state unchanged. (The unamended claim is
false: the 30-day opportunistic pruning can later drop h, see the
counterexample.) -/
theorem claim_C1 (s s2 s3 : ServiceState) (p p2 : Payload) (now now2 : Int)
    (r : VerifyResult) (ns : List Notification) (q2 : Rat)
    (h : verify_transaction s p now = .ok (r, s2, ns))
    (hv : r.verified = true)
    (hh : p.transaction_hash ≠ "")
    (hflag3 : s3.circuit_breaker_open = false)
    (hq2 : parseAmount p2.amount = .ok q2)
    (hh2 : p2.transaction_hash = p.transaction_hash)
    (hmem3 : (dictGet s3.used_transactions p.transaction_hash).isSome = true) :
    (dictGet s2.used_transactions p.transaction_hash).isSome = true
    ∧ verify_transaction s3 p2 now2 = .ok (replayResult, s3, []) := by
  constructor
  · rw [verified_hash_recorded s p now r s2 ns h hv hh]
    rfl
  · exact verify_path_replay s3 p2 now2 q2 hflag3 hq2 (by rw [hh2]; exact hh)
      (by rw [hh2]; exact hmem3)

def c1Invoice : Invoice := ⟨.num 1, "m1", "W1"⟩

def c1State : ServiceState := ⟨false, [], [("INV-A", c1Invoice), ("INV-B", c1Invoice)], []⟩

def c1PayA : Payload := ⟨"INV-A", .num 1, "m1", "h1", "W1", "", none⟩

def c1PayB : Payload := ⟨"INV-B", .num 1, "m1", "h2", "W1", "", none⟩

def c1S1 : ServiceState := exState (verify_transaction c1State c1PayA 0)

def c1S2 : ServiceState := exState (verify_transaction c1S1 c1PayB 2592001)

/-- Claim C1, counterexample to the claim as stated: hash h1 is verified at
time 0; 30 days + 1 second later a different transaction verifies, which
opportunistically prunes h1 from the ledger; resubmitting the identical h1
payload then verifies again instead of returning REPLAY_DETECTED. -/
theorem claim_C1_counterexample :
    (exRes (verify_transaction c1State c1PayA 0)).verified = true
    ∧ (exRes (verify_transaction c1S1 c1PayB 2592001)).verified = true
    ∧ dictGet c1S2.used_transactions "h1" = none
    ∧ (exRes (verify_transaction c1S2 c1PayA 2592001)).verified = true
    ∧ (exRes (verify_transaction c1S2 c1PayA 2592001)).error_code ≠ some "REPLAY_DETECTED" := by
  refine ⟨?_, ?_, ?_, ?_, ?_⟩ <;> with_unfolding_all decide

/-- Claim C1, witness: the amended theorem applied to a concrete verified
transaction and an immediate replay of the same hash. -/
theorem claim_C1_witness :
    (dictGet (successState c1State c1PayA 1 0).used_transactions "h1").isSome = true
    ∧ verify_transaction (successState c1State c1PayA 1 0) c1PayA 5 =
        .ok (replayResult, successState c1State c1PayA 1 0, []) :=
  claim_C1 c1State (successState c1State c1PayA 1 0) (successState c1State c1PayA 1 0)
    c1PayA c1PayA 0 5 (successResult c1PayA 0) [successNotification c1PayA 1 0] 1
    (by with_unfolding_all rfl) rfl (by decide) (by with_unfolding_all rfl) rfl rfl
    (by with_unfolding_all rfl)

/-- Claim C2: with every earlier check passing, the amount check yields
UNDERPAID exactly when T < A - 1e-7, reporting expected_amount = A,
received_amount = T and difference = A - T with verified=false and no state
change; when T ≥ A - 1e-7 (including arbitrary overpayment) the verification
does not reject on amount and reports amount_verified=true. -/
theorem claim_C2 (s : ServiceState) (p : Payload) (now : Int) (T A : Rat) (inv : Invoice)
    (hflag : s.circuit_breaker_open = false)
    (hT : parseAmount p.amount = .ok T)
    (hnorep : ¬(p.transaction_hash ≠ "" ∧
      (dictGet s.used_transactions p.transaction_hash).isSome = true))
    (hvm : (validate_memo (memoOf p)).1 = true)
    (hid : invoiceIdFromMemo p ≠ "")
    (hres : resolveInvoiceData s p = some inv)
    (hA : parseAmount inv.amount = .ok A)
    (hrec : ¬(recipientOf p ≠ "" ∧ inv.walletAddress ≠ "" ∧
      pyLower (recipientOf p) ≠ pyLower inv.walletAddress))
    (hmer : ¬(p.merchant_id ≠ "" ∧ inv.merchantId ≠ "" ∧
      p.merchant_id ≠ inv.merchantId)) :
    ((exRes (verify_transaction s p now)).error_code = some "UNDERPAID" ↔ T < A - TOLERANCE)
    ∧ (T < A - TOLERANCE → verify_transaction s p now = .ok (underpaidResult A T, s, []))
    ∧ (A - TOLERANCE ≤ T →
        (exRes (verify_transaction s p now)).verified = true
        ∧ (exRes (verify_transaction s p now)).amount_verified = true
        ∧ (exRes (verify_transaction s p now)).error_code ≠ some "UNDERPAID") := by
  by_cases hlt : T < A - TOLERANCE
  · have hpath := verify_path_underpaid s p now T inv A hflag hT hnorep hvm hid hres hA hlt
    rw [hpath]
    refine ⟨?_, fun _ => rfl, fun hge => absurd hlt (not_lt.mpr hge)⟩
    simp [exRes, underpaidResult, hlt]
  · have hpath := verify_path_success s p now T inv A hflag hT hnorep hvm hid hres hA hlt hrec hmer
    rw [hpath]
    refine ⟨?_, fun hc => absurd hc hlt, fun _ => ⟨rfl, rfl, by simp [exRes, successResult]⟩⟩
    simp only [exRes, successResult]
    exact ⟨fun hc => by simp at hc, fun hc => absurd hc hlt⟩

def c2State : ServiceState := ⟨false, [], [], []⟩

def c2Invoice : Invoice := ⟨.num 1, "m1", "W1"⟩

def c2Pay : Payload := ⟨"INV-A", .num (mkRat 1 2), "m1", "h1", "W1", "", some c2Invoice⟩

/-- Claim C2, witness: a payment of 1/2 Pi against a 1 Pi invoice is rejected
UNDERPAID with expected 1, received 1/2, difference 1/2. -/
theorem claim_C2_witness :
    verify_transaction c2State c2Pay 0 = .ok (underpaidResult 1 (mkRat 1 2), c2State, []) :=
  (claim_C2 c2State c2Pay 0 (mkRat 1 2) 1 c2Invoice rfl rfl (by decide)
      (by decide) (by decide) rfl rfl (by decide) (by decide)).2.1
    (by with_unfolding_all decide)

/-- Claim C3: `validate_memo` accepts exactly the memos whose UTF-8 encoding
is at most 28 bytes, always reports the actual UTF-8 byte count, and on
rejection carries the formatted message embedding that byte count; the empty
memo is valid with byte_length 0 (the m = "" case of the second conjunct). -/
theorem claim_C3 (m : String) :
    ((validate_memo m).1 = true ↔ m.utf8ByteSize ≤ 28)
    ∧ (validate_memo m).2.2 = m.utf8ByteSize
    ∧ (28 < m.utf8ByteSize →
        (validate_memo m).2.1 =
          some ("Memo exceeds 28 bytes limit: " ++ toString m.utf8ByteSize ++
            " bytes (Stellar limit)"))
    ∧ (m.utf8ByteSize ≤ 28 → (validate_memo m).2.1 = none) :=
  validate_memo_spec m

/-- Claim C3, witness: the 29-byte memo "INV-" + 25 X fails with the message
reporting 29 bytes, the 28-byte memo "INV-" + 24 X passes, and the empty memo
reports byte_length 0. -/
theorem claim_C3_witness :
    (validate_memo "INV-XXXXXXXXXXXXXXXXXXXXXXXXX").2.1 =
      some ("Memo exceeds 28 bytes limit: " ++ toString (29 : Nat) ++
        " bytes (Stellar limit)")
    ∧ (validate_memo "INV-XXXXXXXXXXXXXXXXXXXXXXXX").1 = true
    ∧ (validate_memo "").2.2 = 0 :=
  ⟨(claim_C3 "INV-XXXXXXXXXXXXXXXXXXXXXXXXX").2.2.1 (by decide),
   (claim_C3 "INV-XXXXXXXXXXXXXXXXXXXXXXXX").1.mpr (by decide),
   (claim_C3 "").2.1⟩

/-- Claim C4: the checks run in the strict source order — a hibernating
service answers `hibernation` on any payload; a payload with a replayed hash
and an over-length memo gets REPLAY_DETECTED, not MEMO_TOO_LONG; and a payload
with an over-length memo and an unresolvable invoice gets MEMO_TOO_LONG, not
INVOICE_NOT_FOUND. -/
theorem claim_C4 (s sr sm : ServiceState) (p pr pm : Payload) (now : Int) (qr qm : Rat)
    (hflag : s.circuit_breaker_open = true)
    (hflagr : sr.circuit_breaker_open = false)
    (hqr : parseAmount pr.amount = .ok qr)
    (hhashr : pr.transaction_hash ≠ "")
    (hmemr : (dictGet sr.used_transactions pr.transaction_hash).isSome = true)
    (hlongr : 28 < (memoOf pr).utf8ByteSize)
    (hflagm : sm.circuit_breaker_open = false)
    (hqm : parseAmount pm.amount = .ok qm)
    (hnorepm : ¬(pm.transaction_hash ≠ "" ∧
      (dictGet sm.used_transactions pm.transaction_hash).isSome = true))
    (hlongm : 28 < (memoOf pm).utf8ByteSize)
    (hnoinv : resolveInvoiceData sm pm = none) :
    verify_transaction s p now = .ok (hibernationResult, s, [])
    ∧ verify_transaction sr pr now = .ok (replayResult, sr, [])
    ∧ verify_transaction sm pm now =
        .ok (memoTooLongResult ((validate_memo (memoOf pm)).2.1.getD ""), sm, []) := by
  refine ⟨verify_path_hibernation s p now hflag,
    verify_path_replay sr pr now qr hflagr hqr hhashr hmemr,
    verify_path_memo_too_long sm pm now qm hflagm hqm hnorepm ?_⟩
  rcases hbool : (validate_memo (memoOf pm)).1 with _ | _
  · rfl
  · exact absurd ((validate_memo_spec (memoOf pm)).1.mp hbool) (by omega)

def c4StateHib : ServiceState := ⟨true, [], [], []⟩

def c4StateR : ServiceState := ⟨false, [("h1", 0)], [], []⟩

def c4StateM : ServiceState := ⟨false, [], [], []⟩

def c4PayR : Payload := ⟨"INV-XXXXXXXXXXXXXXXXXXXXXXXXX", .num 1, "m1", "h1", "W1", "", none⟩

def c4PayM : Payload := ⟨"INV-XXXXXXXXXXXXXXXXXXXXXXXXX", .num 1, "m1", "h2", "W1", "", none⟩

/-- Claim C4, witness: the ordering theorem at concrete states — a hibernating
service with an arbitrary payload, a replayed hash combined with a 29-byte
memo, and a 29-byte memo with an unregistered invoice. -/
theorem claim_C4_witness :
    verify_transaction c4StateHib c4PayR 0 = .ok (hibernationResult, c4StateHib, [])
    ∧ verify_transaction c4StateR c4PayR 0 = .ok (replayResult, c4StateR, [])
    ∧ verify_transaction c4StateM c4PayM 0 =
        .ok (memoTooLongResult ((validate_memo (memoOf c4PayM)).2.1.getD ""), c4StateM, []) :=
  claim_C4 c4StateHib c4StateR c4StateM c4PayR c4PayR c4PayM 0 1 1 rfl rfl rfl
    (by decide) (by with_unfolding_all decide) (by decide) rfl rfl (by decide)
    (by decide) (by with_unfolding_all rfl)

/-- Claim C5: every returned non-verified outcome (hibernation and all the
error codes) leaves the replay ledger, the pending-transactions table and the
invoice cache exactly as they were, and emits no notification. -/
theorem claim_C5 (s : ServiceState) (p : Payload) (now : Int)
    (r : VerifyResult) (s' : ServiceState) (ns : List Notification)
    (h : verify_transaction s p now = .ok (r, s', ns)) (hv : r.verified = false) :
    s'.used_transactions = s.used_transactions
    ∧ s'.pending_transactions = s.pending_transactions
    ∧ s'.invoice_cache = s.invoice_cache
    ∧ ns = [] := by
  obtain ⟨hs, hns⟩ := verify_not_verified_inv s p now r s' ns h hv
  subst hs
  exact ⟨rfl, rfl, rfl, hns⟩

def c5State : ServiceState := ⟨true, [("h0", 0)], [("INV-A", c1Invoice)], []⟩

/-- Claim C5, witness: a hibernating service rejects without touching any
table and without notifying. -/
theorem claim_C5_witness :
    c5State.used_transactions = c5State.used_transactions
    ∧ c5State.pending_transactions = c5State.pending_transactions
    ∧ c5State.invoice_cache = c5State.invoice_cache
    ∧ ([] : List Notification) = [] :=
  claim_C5 c5State c1PayA 0 hibernationResult c5State []
    (by with_unfolding_all rfl) rfl

/-- Claim C6: from a fresh breaker, `failure_threshold` consecutive
`record_failure` calls open the circuit; `can_attempt` in the open state
returns false before `timeout` seconds have elapsed since the last failure and
returns true — transitioning to half_open — once they have; `can_attempt`
returns true in the closed and half_open states; and a subsequent
`record_success` yields state closed with failure_count 0. -/
theorem claim_C6 (threshold timeout : Nat) (ts : List Int) (tl now early : Int)
    (cb cbF : CircuitBreaker)
    (hpos : 1 ≤ threshold)
    (hlen : ts.length = threshold)
    (hlast : ts.getLast? = some tl)
    (hcb : cbF = applyFailures ts (CircuitBreaker.init threshold timeout))
    (hlate : tl + (timeout : Int) ≤ now)
    (hearly : early < tl + (timeout : Int))
    (hstate : cb.state = "closed" ∨ cb.state = "half_open") :
    cbF.state = "open"
    ∧ cbF.can_attempt early = (false, cbF)
    ∧ cbF.can_attempt now = (true, { cbF with state := "half_open" })
    ∧ (cb.can_attempt now).1 = true
    ∧ (cbF.can_attempt now).2.record_success.state = "closed"
    ∧ (cbF.can_attempt now).2.record_success.failure_count = 0 := by
  subst hcb
  have hopen : (applyFailures ts (CircuitBreaker.init threshold timeout)).state = "open" := by
    apply applyFailures_state_open
    · intro hnil
      rw [hnil] at hlen
      simp at hlen
      omega
    · show threshold ≤ 0 + ts.length
      omega
  have hlft := applyFailures_lft ts (CircuitBreaker.init threshold timeout) tl hlast
  have htimeout : (applyFailures ts (CircuitBreaker.init threshold timeout)).timeout = timeout := by
    rw [applyFailures_timeout]
    rfl
  refine ⟨hopen, ?_, ?_, ?_, rfl, rfl⟩
  · exact can_attempt_open_early _ early tl hopen hlft (by rw [htimeout]; exact hearly)
  · exact can_attempt_open_ready _ now tl hopen hlft (by rw [htimeout]; exact hlate)
  · rcases hstate with hc | hc
    · rw [can_attempt_closed cb now hc]
    · rw [can_attempt_half_open cb now hc]

/-- Claim C6, witness: the default breaker (threshold 5, timeout 60) after five
failures at time 0, probed at 59 s (refused) and 60 s (half_open), then reset. -/
theorem claim_C6_witness :
    (applyFailures [0, 0, 0, 0, 0] (CircuitBreaker.init 5 60)).state = "open"
    ∧ (applyFailures [0, 0, 0, 0, 0] (CircuitBreaker.init 5 60)).can_attempt 59 =
        (false, applyFailures [0, 0, 0, 0, 0] (CircuitBreaker.init 5 60))
    ∧ (applyFailures [0, 0, 0, 0, 0] (CircuitBreaker.init 5 60)).can_attempt 60 =
        (true, { applyFailures [0, 0, 0, 0, 0] (CircuitBreaker.init 5 60) with
                  state := "half_open" })
    ∧ ((CircuitBreaker.init 5 60).can_attempt 60).1 = true
    ∧ ((applyFailures [0, 0, 0, 0, 0] (CircuitBreaker.init 5 60)).can_attempt 60).2.record_success.state = "closed"
    ∧ ((applyFailures [0, 0, 0, 0, 0] (CircuitBreaker.init 5 60)).can_attempt 60).2.record_success.failure_count = 0 :=
  claim_C6 5 60 [0, 0, 0, 0, 0] 0 60 59 (CircuitBreaker.init 5 60)
    (applyFailures [0, 0, 0, 0, 0] (CircuitBreaker.init 5 60))
    (by decide) (by decide) (by decide) rfl (by decide) (by decide) (Or.inl rfl)

/-- Claim C7: in every reachable probe state HIBERNATION implies the
hibernation flag; the flag turns on only when hibernation is entered and turns
off only on a successful public probe that simultaneously moves the mode to
PUBLIC; and the scenario [local:fail, public:fail] from the initial state ends
in HIBERNATION with the flag set, after which a public success moves the mode
to PUBLIC and clears the flag. -/
theorem claim_C7 (s sB sC : ProbeState) (envB envC : ProbeEnv) (t1 t2 : Int)
    (o2 : ProbeOutcome) (sA sR : ProbeState)
    (hreach : ReachableProbe s) (hmode : s.current_mode = NodeMode.HIBERNATION)
    (hBflag : sB.circuit_breaker_open = false)
    (hBset : (checkPendingTransactions envB sB).circuit_breaker_open = true)
    (hCflag : sC.circuit_breaker_open = true)
    (hCclear : (checkPendingTransactions envC sC).circuit_breaker_open = false)
    (hA : sA = checkPendingTransactions ⟨t1, .netError, .netError⟩ initialProbeState)
    (hR : sR = checkPendingTransactions ⟨t2, o2, .status 200⟩ sA) :
    s.circuit_breaker_open = true
    ∧ (checkPendingTransactions envB sB).current_mode = NodeMode.HIBERNATION
    ∧ (envC.publicOutcome = .status 200
        ∧ (checkPendingTransactions envC sC).current_mode = NodeMode.PUBLIC)
    ∧ (sA.current_mode = NodeMode.HIBERNATION ∧ sA.circuit_breaker_open = true)
    ∧ (sR.current_mode = NodeMode.PUBLIC ∧ sR.circuit_breaker_open = false) := by
  have hAval : sA = ⟨NodeMode.HIBERNATION, true, ⟨5, 60, 2, some t1, "closed"⟩⟩ := by
    rw [hA]
    simp [checkPendingTransactions, localPhase, publicPhase, tryLocalNode, tryPublicApi,
      CircuitBreaker.can_attempt, CircuitBreaker.record_failure, CircuitBreaker.init,
      initialProbeState]
  have hRval : sR = ⟨NodeMode.PUBLIC, false, ⟨5, 60, 0, some t1, "closed"⟩⟩ := by
    rw [hR, hAval]
    simp [checkPendingTransactions, localPhase, publicPhase, tryLocalNode, tryPublicApi,
      CircuitBreaker.can_attempt, CircuitBreaker.record_success]
  refine ⟨probe_inv s hreach hmode, step_flag_set envB sB hBflag hBset,
    step_flag_clear envC sC hCflag hCclear, ?_, ?_⟩
  · rw [hAval]
    exact ⟨rfl, rfl⟩
  · rw [hRval]
    exact ⟨rfl, rfl⟩

def c7Env1 : ProbeEnv := ⟨0, .netError, .netError⟩

def c7Env2 : ProbeEnv := ⟨5, .netError, .status 200⟩

def c7Hib : ProbeState := checkPendingTransactions c7Env1 initialProbeState

/-- Claim C7, witness: the theorem applied to the concrete two-step scenario
fail/fail then public success. -/
theorem claim_C7_witness :
    c7Hib.circuit_breaker_open = true
    ∧ (checkPendingTransactions c7Env1 initialProbeState).current_mode = NodeMode.HIBERNATION
    ∧ (c7Env2.publicOutcome = .status 200
        ∧ (checkPendingTransactions c7Env2 c7Hib).current_mode = NodeMode.PUBLIC)
    ∧ ((checkPendingTransactions c7Env1 initialProbeState).current_mode = NodeMode.HIBERNATION
        ∧ (checkPendingTransactions c7Env1 initialProbeState).circuit_breaker_open = true)
    ∧ ((checkPendingTransactions c7Env2 (checkPendingTransactions c7Env1 initialProbeState)).current_mode = NodeMode.PUBLIC
        ∧ (checkPendingTransactions c7Env2 (checkPendingTransactions c7Env1 initialProbeState)).circuit_breaker_open = false) :=
  claim_C7 c7Hib initialProbeState c7Hib c7Env1 c7Env2 0 5 .netError
    (checkPendingTransactions c7Env1 initialProbeState)
    (checkPendingTransactions c7Env2 (checkPendingTransactions c7Env1 initialProbeState))
    (ReachableProbe.step c7Env1 ReachableProbe.init) (by decide) rfl (by decide)
    (by decide) (by decide) rfl rfl

/-- Claim C8 (amended): a 200 probe response records success on the breaker; a
500 or 503 response, a timeout or a connection error records a failure and the
probe reports unsuccessful; but any other status (e.g. 404) merely reports
unsuccessful (the source returns a falsy None) and records nothing on the
breaker. -/
theorem claim_C8 (now : Int) (cb : CircuitBreaker) (s : ProbeState) (code : Nat)
    (h200 : code ≠ 200) (h500 : code ≠ 500) (h503 : code ≠ 503) :
    tryLocalNode (.status 200) now cb = (some true, cb.record_success)
    ∧ tryLocalNode (.status 500) now cb = (some false, cb.record_failure now)
    ∧ tryLocalNode (.status 503) now cb = (some false, cb.record_failure now)
    ∧ tryLocalNode .netError now cb = (some false, cb.record_failure now)
    ∧ tryLocalNode (.status code) now cb = (none, cb)
    ∧ ((tryPublicApi (.status 200) now s).1 = some true
        ∧ (tryPublicApi (.status 200) now s).2.circuit_breaker =
            s.circuit_breaker.record_success)
    ∧ tryPublicApi (.status 500) now s =
        (some false, { s with circuit_breaker := s.circuit_breaker.record_failure now })
    ∧ tryPublicApi (.status 503) now s =
        (some false, { s with circuit_breaker := s.circuit_breaker.record_failure now })
    ∧ tryPublicApi .netError now s =
        (some false, { s with circuit_breaker := s.circuit_breaker.record_failure now })
    ∧ tryPublicApi (.status code) now s = (none, s) := by
  refine ⟨by simp [tryLocalNode], by simp [tryLocalNode], by simp [tryLocalNode],
    rfl, by simp [tryLocalNode, h200, h500, h503], ?_, by simp [tryPublicApi],
    by simp [tryPublicApi], rfl, by simp [tryPublicApi, h200, h500, h503]⟩
  by_cases hH : s.current_mode = NodeMode.HIBERNATION <;>
    simp [tryPublicApi, hH]

/-- Claim C8, counterexample to the claim as stated: a 404 response from the
local probe leaves the circuit breaker completely untouched (failure_count
stays 0), whereas the claim requires `record_failure` (which would make it 1);
the probe still reports unsuccessful (None, not True). -/
theorem claim_C8_counterexample :
    tryLocalNode (.status 404) 0 (CircuitBreaker.init 5 60) =
      (none, CircuitBreaker.init 5 60)
    ∧ (CircuitBreaker.init 5 60).failure_count = 0
    ∧ ((CircuitBreaker.init 5 60).record_failure 0).failure_count = 1 := by
  refine ⟨?_, rfl, ?_⟩ <;> decide

/-- Claim C8, witness: the amended theorem at a concrete breaker, probe state
and the off-taxonomy status 404. -/
theorem claim_C8_witness :
    tryLocalNode (.status 200) 0 (CircuitBreaker.init 5 60) =
      (some true, (CircuitBreaker.init 5 60).record_success)
    ∧ tryLocalNode (.status 500) 0 (CircuitBreaker.init 5 60) =
        (some false, (CircuitBreaker.init 5 60).record_failure 0)
    ∧ tryLocalNode (.status 503) 0 (CircuitBreaker.init 5 60) =
        (some false, (CircuitBreaker.init 5 60).record_failure 0)
    ∧ tryLocalNode .netError 0 (CircuitBreaker.init 5 60) =
        (some false, (CircuitBreaker.init 5 60).record_failure 0)
    ∧ tryLocalNode (.status 404) 0 (CircuitBreaker.init 5 60) =
        (none, CircuitBreaker.init 5 60)
    ∧ ((tryPublicApi (.status 200) 0 initialProbeState).1 = some true
        ∧ (tryPublicApi (.status 200) 0 initialProbeState).2.circuit_breaker =
            initialProbeState.circuit_breaker.record_success)
    ∧ tryPublicApi (.status 500) 0 initialProbeState =
        (some false, { initialProbeState with
          circuit_breaker := initialProbeState.circuit_breaker.record_failure 0 })
    ∧ tryPublicApi (.status 503) 0 initialProbeState =
        (some false, { initialProbeState with
          circuit_breaker := initialProbeState.circuit_breaker.record_failure 0 })
    ∧ tryPublicApi .netError 0 initialProbeState =
        (some false, { initialProbeState with
          circuit_breaker := initialProbeState.circuit_breaker.record_failure 0 })
    ∧ tryPublicApi (.status 404) 0 initialProbeState = (none, initialProbeState) :=
  claim_C8 0 (CircuitBreaker.init 5 60) initialProbeState 404
    (by decide) (by decide) (by decide)

/-- Claim C9 (amended): every business outcome of `verify_transaction` is a
tagged result, but the function does raise across its boundary: exactly when
`float()` is applied to an unparseable amount — either the payload's or the
resolved invoice's — a ValueError escapes (there is no generic invalid-request
outcome inside the service; the HTTP layer above converts the exception). -/
theorem claim_C9 (s : ServiceState) (p : Payload) (now : Int) (e : PyExn)
    (h : verify_transaction s p now = .error e) :
    e = .valueError ∧ s.circuit_breaker_open = false ∧
      (parseAmount p.amount = .error e ∨
        ∃ q inv, parseAmount p.amount = .ok q ∧ resolveInvoiceData s p = some inv ∧
          parseAmount inv.amount = .error e) := by
  obtain ⟨hflag, he, hcases⟩ := verify_error_inv s p now e h
  exact ⟨he, hflag, hcases⟩

/-- Claim C9, counterexample to the claim as stated: a payload whose amount
field does not parse makes `verify_transaction` raise ValueError across its
boundary instead of returning a tagged invalid-request result. -/
theorem claim_C9_counterexample :
    verify_transaction ⟨false, [], [], []⟩ ⟨"", .malformed "abc", "", "", "", "", none⟩ 0 =
      .error .valueError := by
  with_unfolding_all rfl

/-- Claim C9, witness: the amended theorem applied to the concrete raising
input. -/
theorem claim_C9_witness :
    PyExn.valueError = PyExn.valueError
    ∧ (⟨false, [], [], []⟩ : ServiceState).circuit_breaker_open = false :=
  ⟨(claim_C9 ⟨false, [], [], []⟩ ⟨"", .malformed "abc", "", "", "", "", none⟩ 0 .valueError
      (by with_unfolding_all rfl)).1,
   (claim_C9 ⟨false, [], [], []⟩ ⟨"", .malformed "abc", "", "", "", "", none⟩ 0 .valueError
      (by with_unfolding_all rfl)).2.1⟩

/-- Claim C10: `verify_transaction` sees the memo and recipient only through
`strip()` — replacing them by any strings with the same stripped form changes
nothing; memo validity keys on the stripped memo's byte length; on success the
result's invoice id comes from matching the stripped memo against "INV-", and
the stored record holds the stripped memo and stripped recipient. -/
theorem claim_C10 (s : ServiceState) (p : Payload) (m rcp : String) (now : Int)
    (r : VerifyResult) (s' : ServiceState) (ns : List Notification)
    (hm : pyStrip m = pyStrip p.memo)
    (hrcp : pyStrip rcp = pyStrip p.recipient)
    (h : verify_transaction s p now = .ok (r, s', ns))
    (hv : r.verified = true) :
    verify_transaction s { p with memo := m, recipient := rcp } now =
      verify_transaction s p now
    ∧ ((validate_memo (memoOf p)).1 = true ↔ (pyStrip p.memo).utf8ByteSize ≤ 28)
    ∧ r.invoice_id = some (if strStarts (pyStrip p.memo) "INV-" = true then pyStrip p.memo
        else p.invoice_id)
    ∧ (∃ entry, dictGet s'.pending_transactions (txIdOf p now) = some entry
        ∧ entry.memo = pyStrip p.memo ∧ entry.recipient = pyStrip p.recipient) := by
  have hmemoOf : memoOf { p with memo := m, recipient := rcp } = memoOf p := by
    simp [memoOf, hm]
  have hrecOf : recipientOf { p with memo := m, recipient := rcp } = recipientOf p := by
    simp [recipientOf, hrcp]
  have hidOf : invoiceIdFromMemo { p with memo := m, recipient := rcp } =
      invoiceIdFromMemo p := by
    simp [invoiceIdFromMemo, hmemoOf]
  have hresolve : resolveInvoiceData s { p with memo := m, recipient := rcp } =
      resolveInvoiceData s p := by
    simp [resolveInvoiceData, hidOf]
  have htx : txIdOf { p with memo := m, recipient := rcp } now = txIdOf p now := by
    simp [txIdOf, hidOf]
  have hcommit : commitUsed s { p with memo := m, recipient := rcp } now =
      commitUsed s p now := by
    simp [commitUsed]
  obtain ⟨q, inv, A, hq, hres, hA, hflag, hnorep, hr, hs, hns⟩ :=
    verify_verified_inv s p now r s' ns h hv
  refine ⟨?_, (validate_memo_spec (memoOf p)).1, ?_, ?_⟩
  · unfold verify_transaction
    simp only [hmemoOf, hrecOf, hidOf, hresolve, htx, hcommit, successState, pendingEntry,
      successResult, successNotification]
  · subst hr
    simp [successResult, invoiceIdFromMemo, memoOf]
  · subst hs
    refine ⟨pendingEntry p q now, ?_, rfl, rfl⟩
    show dictGet (dictSet s.pending_transactions (txIdOf p now) (pendingEntry p q now))
      (txIdOf p now) = some (pendingEntry p q now)
    exact dictGet_dictSet_self s.pending_transactions (txIdOf p now) (pendingEntry p q now)

def c10State : ServiceState := ⟨false, [], [], []⟩

def c10Invoice : Invoice := ⟨.num 1, "m1", "W1"⟩

def c10Pay : Payload :=
  ⟨"                              INV-A", .num 1, "m1", "h1", " W1 ", "", some c10Invoice⟩

/-- Claim C10, witness: a payload whose raw memo is 35 bytes (30 spaces of
padding around a 5-byte invoice id) and whose recipient carries surrounding
whitespace verifies identically to its stripped form, and the verified
result's invoice id is the stripped memo. -/
theorem claim_C10_witness :
    verify_transaction c10State { c10Pay with memo := "INV-A", recipient := "W1" } 0 =
      verify_transaction c10State c10Pay 0
    ∧ (successResult c10Pay 0).invoice_id =
        some (if strStarts (pyStrip c10Pay.memo) "INV-" = true then pyStrip c10Pay.memo
          else c10Pay.invoice_id) :=
  ⟨(claim_C10 c10State c10Pay "INV-A" "W1" 0 (successResult c10Pay 0)
      (successState c10State c10Pay 1 0) [successNotification c10Pay 1 0]
      (by decide) (by decide) (by with_unfolding_all rfl) rfl).1,
   (claim_C10 c10State c10Pay "INV-A" "W1" 0 (successResult c10Pay 0)
      (successState c10State c10Pay 1 0) [successNotification c10Pay 1 0]
      (by decide) (by decide) (by with_unfolding_all rfl) rfl).2.2.1⟩

end Ledgererp
